import Mathlib

/-!
Shallow embedding of the WeatherApp single-page component (`src/App.jsx`).

The component's only logic is the pure URL builder `buildUrl` and the
submit / mode-change event handlers.  We embed:

* `Mode` — the three values of the `MODES` object;
* URL query parameters as an ordered association list with the
  `URLSearchParams.set` semantics (replace the first occurrence of the key
  and drop the rest, else append);
* `buildUrl` — returns the URL structurally (base, endpoint path, ordered
  query parameters) instead of the rendered query string, eliding only the
  percent-encoding applied by `URLSearchParams.toString`;
* `AppState` — the six `useState` cells of the component;
* `handleModeChange` and `handleSubmit`.  `handleSubmit` is embedded as a
  function of the configured credential, the current state and the outcome
  of the (single, never retried) `fetch`; it returns the new state together
  with `some url` when a network request was issued with that URL and
  `none` when validation stopped the submission before any network call.
-/

inductive Mode where
  | current
  | historical
  | marine
deriving DecidableEq, Repr

/-- Query parameters of a URL, in insertion order (as in `URLSearchParams`). -/
abbrev Params := List (String × String)

/-- `URLSearchParams.set`: if the key is present, replace the value of its
first occurrence and delete the other occurrences; otherwise append. -/
def setParam : Params → String → String → Params
  | [], k, v => [(k, v)]
  | (k', v') :: rest, k, v =>
    if k' = k then (k, v) :: rest.filter (fun p => p.1 ≠ k)
    else (k', v') :: setParam rest k v

/-- The URL returned by `buildUrl`, kept structural:
`base ++ "/" ++ endpoint ++ "?" ++ <rendered params>`. -/
structure BuiltUrl where
  base : String
  endpoint : String
  params : Params
deriving DecidableEq, Repr

def API_BASE_URL : String := "https://api.weatherstack.com"

/-- The destructured argument object of `buildUrl({ mode, location, date })`.
The `date` state cell is a string; the empty string is the absent date. -/
structure BuildUrlArgs where
  mode : Mode
  location : String
  date : String
deriving DecidableEq, Repr

/-- `buildUrl` from `src/App.jsx`.  `API_KEY` may be undefined (the env
variable is unset) or a string, hence `Option String`; `API_KEY || ''`
is `apiKey.getD ""` (an unset or empty key both give `""`). -/
def buildUrl (apiKey : Option String) (a : BuildUrlArgs) : BuiltUrl :=
  let params : Params := setParam [] "access_key" (apiKey.getD "")
  if a.mode = Mode.marine then
    { base := API_BASE_URL, endpoint := "marine",
      params := setParam params "query" a.location }
  else
    let params := setParam params "query" a.location
    let params :=
      if a.mode = Mode.historical ∧ a.date ≠ "" then
        setParam params "historical_date" a.date
      else params
    let endpoint := if a.mode = Mode.historical then "historical" else "current"
    { base := API_BASE_URL, endpoint := endpoint, params := params }

/-- The endpoint path the spec prescribes for each mode. -/
def modeEndpoint : Mode → String
  | .current => "current"
  | .historical => "historical"
  | .marine => "marine"

/-- C1: for every mode, location and date (and any credential), the built
URL's endpoint path matches the mode, and the query parameters contain the
parameter `query` exactly once, with the given location as its value. -/
theorem buildUrl_endpoint_and_query (key : Option String) (mode : Mode)
    (loc dt : String) :
    (buildUrl key ⟨mode, loc, dt⟩).endpoint = modeEndpoint mode ∧
    (buildUrl key ⟨mode, loc, dt⟩).params.filter (fun p => p.1 == "query")
      = [("query", loc)] := by
  cases mode <;> by_cases hd : dt = "" <;>
    simp [buildUrl, setParam, modeEndpoint, hd]

/-- C2: the built URL contains a `historical_date` parameter iff the mode is
historical and a non-empty date was supplied; marine and current URLs never
contain it. -/
theorem buildUrl_historical_date_iff (key : Option String) (mode : Mode)
    (loc dt : String) :
    ((buildUrl key ⟨mode, loc, dt⟩).params.any
        (fun p => p.1 == "historical_date")) = true ↔
      (mode = Mode.historical ∧ dt ≠ "") := by
  cases mode <;> by_cases hd : dt = "" <;>
    simp [buildUrl, setParam, hd]

/-- C9: `buildUrl` is total on every input, including an unset or empty
credential: it always returns a well-formed URL against the fixed base,
with the endpoint determined by the mode and an `access_key` parameter
carrying `API_KEY || ''`.  (Purity and absence of I/O hold by construction:
the embedding is a plain function.) -/
theorem buildUrl_total_wellformed (key : Option String) (a : BuildUrlArgs) :
    (buildUrl key a).base = API_BASE_URL ∧
    (buildUrl key a).endpoint = modeEndpoint a.mode ∧
    (buildUrl key a).params.filter (fun p => p.1 == "access_key")
      = [("access_key", key.getD "")] := by
  obtain ⟨m, l, d⟩ := a
  cases m <;> by_cases hd : d = "" <;>
    simp [buildUrl, setParam, modeEndpoint, hd]

/-- The top-level `error` object of a response body; `info` is absent when
the object has no `info` field. -/
structure ErrObj where
  info : Option String
deriving DecidableEq, Repr

/-- A parsed JSON response body, restricted to the one field `handleSubmit`
inspects: the top-level `error` object (`none` when the body has no truthy
`error` field).  The remaining payload is opaque to the handler. -/
structure WeatherJson where
  error : Option ErrObj
deriving DecidableEq, Repr

/-- The six `useState` cells of the `App` component. -/
structure AppState where
  mode : Mode
  location : String
  date : String
  weatherData : Option WeatherJson
  isLoading : Bool
  error : String
deriving DecidableEq, Repr

/-- `handleModeChange`: set the mode, clear the result, clear the error. -/
def handleModeChange (s : AppState) (nextMode : Mode) : AppState :=
  { s with mode := nextMode, weatherData := none, error := "" }

/-- How the single `fetch` of a submission settles:
`resolved ok json` — the response arrived with `res.ok = ok` and its body
parsed to `json`; `thrown m` — `fetch` or `res.json()` threw an exception
whose `message` is `m` (`""` when the message is absent or empty). -/
inductive FetchOutcome where
  | resolved (ok : Bool) (json : WeatherJson)
  | thrown (message : String)
deriving DecidableEq, Repr

def missingKeyMsg : String :=
  "Missing API key. Please set VITE_WEATHERSTACK_API_KEY in your .env file."

def missingLocationMsg : String :=
  "Please enter a location (city name or \"lat,lon\")."

def missingDateMsg : String := "Please pick a historical date."

def fetchFailedMsg : String := "Failed to fetch weather data."

def genericFailureMsg : String :=
  "Something went wrong while fetching weather data."

/-- JS `String.prototype.trim`: drop leading and trailing whitespace.
Modelled on the character list so it evaluates in the kernel. -/
def jsTrim (s : String) : String :=
  ⟨((s.data.dropWhile Char.isWhitespace).reverse.dropWhile
      Char.isWhitespace).reverse⟩

/-- The state after `setIsLoading(true); setError(''); setWeatherData(null)`,
i.e. while the request is in flight. -/
def submitStart (s : AppState) : AppState :=
  { s with isLoading := true, error := "", weatherData := none }

/-- `json.error?.info || 'Failed to fetch weather data.'` — the message of
the error thrown on a non-ok response or an embedded `error` field. -/
def upstreamErrorMessage (json : WeatherJson) : String :=
  match json.error with
  | some e =>
    match e.info with
    | some i => if i = "" then fetchFailedMsg else i
    | none => fetchFailedMsg
  | none => fetchFailedMsg

/-- The `try`/`catch`/`finally` of `handleSubmit` applied to the in-flight
state: on `res.ok` with no embedded `error` field, store the body; else the
thrown message lands in `catch`, which sets
`err.message || 'Something went wrong while fetching weather data.'`;
`finally` sets `isLoading` to `false`. -/
def settle (s : AppState) (outcome : FetchOutcome) : AppState :=
  match outcome with
  | .resolved ok json =>
    if !ok || json.error.isSome then
      let m := upstreamErrorMessage json
      { s with error := if m = "" then genericFailureMsg else m,
               isLoading := false }
    else
      { s with weatherData := some json, isLoading := false }
  | .thrown m =>
    { s with error := if m = "" then genericFailureMsg else m,
             isLoading := false }

/-- `handleSubmit`: the three validation guards, then the fetch cycle.
The second component is `some url` when `fetch(url)` was issued and `none`
when a guard returned first. -/
def handleSubmit (apiKey : Option String) (s : AppState)
    (outcome : FetchOutcome) : AppState × Option BuiltUrl :=
  if apiKey.getD "" = "" then
    ({ s with error := missingKeyMsg }, none)
  else if jsTrim s.location = "" then
    ({ s with error := missingLocationMsg }, none)
  else if s.mode = Mode.historical ∧ s.date = "" then
    ({ s with error := missingDateMsg }, none)
  else
    let url := buildUrl apiKey
      { mode := s.mode, location := jsTrim s.location, date := s.date }
    (settle (submitStart s) outcome, some url)

/-- C3: whenever the location is empty or whitespace-only, submitting issues
no network call and leaves a non-empty error message; when the credential is
present the message is the location validation error. -/
theorem submit_empty_location_no_fetch (key : Option String) (s : AppState)
    (o : FetchOutcome) (h : jsTrim s.location = "") :
    (handleSubmit key s o).2 = none ∧
    (handleSubmit key s o).1.error ≠ "" ∧
    (key.getD "" ≠ "" → (handleSubmit key s o).1.error = missingLocationMsg) := by
  by_cases hk : key.getD "" = "" <;>
    simp [handleSubmit, hk, h, missingKeyMsg, missingLocationMsg]

theorem submit_empty_location_no_fetch_witness :
    (jsTrim (⟨Mode.current, " ", "", none, false, ""⟩ : AppState).location = "") ∧
    ((handleSubmit (some "k") ⟨Mode.current, " ", "", none, false, ""⟩
        (.thrown "")).2 = none ∧
     (handleSubmit (some "k") ⟨Mode.current, " ", "", none, false, ""⟩
        (.thrown "")).1.error ≠ "" ∧
     ((some "k" : Option String).getD "" ≠ "" →
      (handleSubmit (some "k") ⟨Mode.current, " ", "", none, false, ""⟩
        (.thrown "")).1.error = missingLocationMsg)) :=
  ⟨by decide, submit_empty_location_no_fetch (some "k")
    ⟨Mode.current, " ", "", none, false, ""⟩ (.thrown "") (by decide)⟩

/-- C4: in historical mode with no date, submitting issues no network call
and leaves a non-empty error message; when the credential is present and the
location valid, the message is the date validation error. -/
theorem submit_historical_no_date_no_fetch (key : Option String)
    (s : AppState) (o : FetchOutcome) (hm : s.mode = Mode.historical)
    (hd : s.date = "") :
    (handleSubmit key s o).2 = none ∧
    (handleSubmit key s o).1.error ≠ "" ∧
    (key.getD "" ≠ "" → jsTrim s.location ≠ "" →
      (handleSubmit key s o).1.error = missingDateMsg) := by
  by_cases hk : key.getD "" = "" <;> by_cases hl : jsTrim s.location = "" <;>
    simp [handleSubmit, hk, hl, hm, hd, missingKeyMsg, missingLocationMsg,
      missingDateMsg]

theorem submit_historical_no_date_no_fetch_witness :
    ((⟨Mode.historical, "London", "", none, false, ""⟩ : AppState).mode
        = Mode.historical) ∧
    ((⟨Mode.historical, "London", "", none, false, ""⟩ : AppState).date = "") ∧
    ((handleSubmit (some "k") ⟨Mode.historical, "London", "", none, false, ""⟩
        (.thrown "")).2 = none ∧
     (handleSubmit (some "k") ⟨Mode.historical, "London", "", none, false, ""⟩
        (.thrown "")).1.error ≠ "" ∧
     ((some "k" : Option String).getD "" ≠ "" →
      jsTrim (⟨Mode.historical, "London", "", none, false, ""⟩ : AppState).location
          ≠ "" →
      (handleSubmit (some "k") ⟨Mode.historical, "London", "", none, false, ""⟩
        (.thrown "")).1.error = missingDateMsg)) :=
  ⟨rfl, rfl, submit_historical_no_date_no_fetch (some "k")
    ⟨Mode.historical, "London", "", none, false, ""⟩ (.thrown "") rfl rfl⟩

/-- C5 counterexample: a validation-error path does NOT clear the prior
result.  With a credential configured, a stored result and an empty
location, submitting sets the location validation error while
`weatherData` keeps the prior result — refuting the claim that every
error path clears it. -/
theorem submit_validation_error_keeps_result :
    (handleSubmit (some "k") ⟨Mode.current, "", "", some ⟨none⟩, false, ""⟩
        (.thrown "")).1.error ≠ "" ∧
    (handleSubmit (some "k") ⟨Mode.current, "", "", some ⟨none⟩, false, ""⟩
        (.thrown "")).1.weatherData = some ⟨none⟩ := by
  decide

/-- C5 (amended): error paths of a settled fetch (upstream, transport or
parse errors) leave the result cleared and `isLoading` false; the
configuration and validation error paths issue no network call and set a
non-empty error message, but leave `weatherData` and `isLoading` exactly as
they were.  (No retry exists by construction: a submission consults a single
fetch outcome and issues at most one URL.) -/
theorem submit_error_paths (key : Option String) (s : AppState)
    (o : FetchOutcome) :
    ((handleSubmit key s o).2 ≠ none → (handleSubmit key s o).1.error ≠ "" →
      (handleSubmit key s o).1.weatherData = none ∧
      (handleSubmit key s o).1.isLoading = false) ∧
    ((handleSubmit key s o).2 = none →
      (handleSubmit key s o).1.error ≠ "" ∧
      (handleSubmit key s o).1.weatherData = s.weatherData ∧
      (handleSubmit key s o).1.isLoading = s.isLoading) := by
  by_cases hk : key.getD "" = ""
  · simp [handleSubmit, hk, missingKeyMsg]
  by_cases hl : jsTrim s.location = ""
  · simp [handleSubmit, hk, hl, missingLocationMsg]
  by_cases hd : s.mode = Mode.historical ∧ s.date = ""
  · simp [handleSubmit, hk, hl, hd, missingDateMsg]
  cases o with
  | resolved ok json =>
    cases ok <;> cases hj : json.error <;>
      simp [handleSubmit, hk, hl, hd, settle, submitStart, hj]
  | thrown m =>
    simp [handleSubmit, hk, hl, hd, settle, submitStart]

theorem submit_error_paths_witness :
    ((handleSubmit (some "k") ⟨Mode.current, "x", "", some ⟨none⟩, false, ""⟩
        (.thrown "boom")).1.weatherData = none ∧
     (handleSubmit (some "k") ⟨Mode.current, "x", "", some ⟨none⟩, false, ""⟩
        (.thrown "boom")).1.isLoading = false) ∧
    ((handleSubmit none ⟨Mode.current, "x", "", some ⟨none⟩, false, ""⟩
        (.thrown "")).1.error ≠ "" ∧
     (handleSubmit none ⟨Mode.current, "x", "", some ⟨none⟩, false, ""⟩
        (.thrown "")).1.weatherData
       = (⟨Mode.current, "x", "", some ⟨none⟩, false, ""⟩ : AppState).weatherData ∧
     (handleSubmit none ⟨Mode.current, "x", "", some ⟨none⟩, false, ""⟩
        (.thrown "")).1.isLoading
       = (⟨Mode.current, "x", "", some ⟨none⟩, false, ""⟩ : AppState).isLoading) :=
  ⟨(submit_error_paths (some "k")
      ⟨Mode.current, "x", "", some ⟨none⟩, false, ""⟩ (.thrown "boom")).1
      (by decide) (by decide),
   (submit_error_paths none
      ⟨Mode.current, "x", "", some ⟨none⟩, false, ""⟩ (.thrown "")).2
      (by decide)⟩

/-- C6: a submission that passes validation and resolves with `res.ok` but a
top-level `error` field in the body ends Failed: the result is cleared,
loading ends, and the message is `error.info` when that is a non-empty
string, else the generic fetch-failure fallback (also when `info` is
absent). -/
theorem submit_embedded_error_message (key : Option String) (s : AppState)
    (json : WeatherJson) (e : ErrObj) (hk : key.getD "" ≠ "")
    (hl : jsTrim s.location ≠ "")
    (hd : ¬(s.mode = Mode.historical ∧ s.date = ""))
    (he : json.error = some e) :
    (handleSubmit key s (.resolved true json)).2 ≠ none ∧
    (handleSubmit key s (.resolved true json)).1.weatherData = none ∧
    (handleSubmit key s (.resolved true json)).1.isLoading = false ∧
    (∀ i, e.info = some i → i ≠ "" →
      (handleSubmit key s (.resolved true json)).1.error = i) ∧
    (e.info = none →
      (handleSubmit key s (.resolved true json)).1.error = fetchFailedMsg) := by
  refine ⟨?_, ?_, ?_, ?_, ?_⟩ <;>
    simp [handleSubmit, hk, hl, hd, settle, submitStart, upstreamErrorMessage,
      he]
  · intro i hi hne
    simp [hi, hne]
  · intro h0
    simp [h0, fetchFailedMsg]

theorem submit_embedded_error_message_witness :
    (handleSubmit (some "k") ⟨Mode.current, "London", "", none, false, ""⟩
        (.resolved true ⟨some ⟨some "invalid access key"⟩⟩)).1.error
      = "invalid access key" ∧
    (handleSubmit (some "k") ⟨Mode.current, "London", "", none, false, ""⟩
        (.resolved true ⟨some ⟨some "invalid access key"⟩⟩)).1.weatherData
      = none ∧
    (handleSubmit (some "k") ⟨Mode.current, "London", "", none, false, ""⟩
        (.resolved true ⟨some ⟨some "invalid access key"⟩⟩)).1.isLoading
      = false := by
  have h := submit_embedded_error_message (some "k")
    ⟨Mode.current, "London", "", none, false, ""⟩
    ⟨some ⟨some "invalid access key"⟩⟩ ⟨some "invalid access key"⟩
    (by decide) (by decide) (by decide) rfl
  exact ⟨h.2.2.2.1 "invalid access key" rfl (by decide), h.2.1, h.2.2.1⟩

/-- C7: switching the mode clears both the prior result and the prior
error. -/
theorem modeChange_clears_result_and_error (s : AppState) (m : Mode) :
    (handleModeChange s m).weatherData = none ∧
    (handleModeChange s m).error = "" :=
  ⟨rfl, rfl⟩

/-- C8: after a completed request cycle (validation passed and the fetch
settled), at most one of the error and the result is set, loading has
ended, and the in-flight state between submission and settlement had
`isLoading` true. -/
theorem completed_cycle_invariant (key : Option String) (s : AppState)
    (o : FetchOutcome) (h : (handleSubmit key s o).2 ≠ none) :
    ((handleSubmit key s o).1.error = "" ∨
      (handleSubmit key s o).1.weatherData = none) ∧
    (handleSubmit key s o).1.isLoading = false ∧
    (submitStart s).isLoading = true := by
  by_cases hk : key.getD "" = ""
  · simp [handleSubmit, hk] at h
  by_cases hl : jsTrim s.location = ""
  · simp [handleSubmit, hk, hl] at h
  by_cases hd : s.mode = Mode.historical ∧ s.date = ""
  · simp [handleSubmit, hk, hl, hd] at h
  cases o with
  | resolved ok json =>
    cases ok <;> cases hj : json.error <;>
      simp [handleSubmit, hk, hl, hd, settle, submitStart, hj]
  | thrown m =>
    simp [handleSubmit, hk, hl, hd, settle, submitStart]

theorem completed_cycle_invariant_witness :
    ((handleSubmit (some "k") ⟨Mode.current, "x", "", none, false, ""⟩
        (.resolved true ⟨none⟩)).1.error = "" ∨
     (handleSubmit (some "k") ⟨Mode.current, "x", "", none, false, ""⟩
        (.resolved true ⟨none⟩)).1.weatherData = none) ∧
    (handleSubmit (some "k") ⟨Mode.current, "x", "", none, false, ""⟩
        (.resolved true ⟨none⟩)).1.isLoading = false ∧
    (submitStart ⟨Mode.current, "x", "", none, false, ""⟩).isLoading = true :=
  completed_cycle_invariant (some "k") ⟨Mode.current, "x", "", none, false, ""⟩
    (.resolved true ⟨none⟩) (by decide)

/-- C10 (frame): switching the mode changes only `mode`, `weatherData` and
`error`; the typed location and date (and the loading flag) survive. -/
theorem modeChange_frame (s : AppState) (m : Mode) :
    (handleModeChange s m).mode = m ∧
    (handleModeChange s m).location = s.location ∧
    (handleModeChange s m).date = s.date ∧
    (handleModeChange s m).isLoading = s.isLoading :=
  ⟨rfl, rfl, rfl, rfl⟩
